import Mathlib

/-!
Verification of the Maths computational-geometry toolkit (shape model and
intersection/collision engine). The C++ sources are shallowly embedded:
scalars (`float`) are modelled as exact rationals `ℚ`, `std::sqrt` as
`Maths.ratSqrt` (exact on perfect-square rationals; every concrete
evaluation below only applies it to perfect squares), and the
`Intersection&` out-parameters as explicit state passing, each tester
returning `Bool × Intersection`. Early `return`s of the slab loop become
an `Option` result. The rotation matrix `Matrix4x4::Rotate(Quaternion::Euler(angle))`
belongs to the linear-algebra layer that the spec treats as an external
collaborator; it is taken as a function parameter, instantiated with the
identity for `angle = 0`.
-/

namespace Maths

/-- Heron iteration for the integer square root, with explicit fuel so the
kernel can evaluate it. -/
def heron : Nat → Nat → Nat → Nat
  | 0, _, g => g
  | fuel + 1, n, g =>
    let next := (g + n / g) / 2
    if next ≥ g then g else heron fuel n next

/-- Integer square root (floor) by Heron iteration. -/
def natSqrtF (n : Nat) : Nat := if n = 0 then 0 else heron n n n

/-- Rational model of `std::sqrt`: exact whenever the argument is the square
of a rational (numerator and denominator of the reduced form are perfect
squares); such arguments are the only ones evaluated in this file. -/
def ratSqrt (q : ℚ) : ℚ :=
  (natSqrtF q.num.toNat : ℚ) / (natSqrtF q.den : ℚ)

/-- `Maths::Min` from Utilities.hpp: `(p_num < p_min) ? p_num : p_min`. -/
def fmin (a b : ℚ) : ℚ := if a < b then a else b

/-- `Maths::Max` from Utilities.hpp: `(p_num > p_max) ? p_num : p_max`. -/
def fmax (a b : ℚ) : ℚ := if a > b then a else b

/-- `__FLT_MAX__` = `(2 - 2^-23) * 2^127` = `2^128 - 2^104`, written as a
plain numeral. -/
def fltMax : ℚ := 340282346638528859811704183484516925440

/-- `__FLT_MIN__` = `2^-126` (denominator written as a plain numeral), the
smallest positive normalized float. It is positive, not "most negative";
`Range::SAT` seeds its running maximum with it. -/
def fltMin : ℚ := 1 / 85070591730234615865843651857942052864

/-- `__DBL_EPSILON__` = `2^-52` (denominator written as a plain numeral),
used by `Vector3::operator==`. -/
def dblEpsilon : ℚ := 1 / 4503599627370496

/-- `Maths::Vector3` (Includes/Vector3.hpp): three `float` members. -/
structure Vector3 where
  x : ℚ
  y : ℚ
  z : ℚ
  deriving DecidableEq

namespace Vector3

/-- `Vector3::Zero`. -/
def zero : Vector3 := ⟨0, 0, 0⟩

/-- `Vector3::Right` = (1,0,0). -/
def right : Vector3 := ⟨1, 0, 0⟩

/-- `Vector3::Up` = (0,1,0). -/
def up : Vector3 := ⟨0, 1, 0⟩

/-- `Vector3::Forward` = (0,0,1). -/
def forward : Vector3 := ⟨0, 0, 1⟩

instance : Add Vector3 := ⟨fun a b => ⟨a.x + b.x, a.y + b.y, a.z + b.z⟩⟩

instance : Sub Vector3 := ⟨fun a b => ⟨a.x - b.x, a.y - b.y, a.z - b.z⟩⟩

instance : Neg Vector3 := ⟨fun a => ⟨-a.x, -a.y, -a.z⟩⟩

/-- `operator*(const Vector3&, const float)`: componentwise scale. -/
def smul (v : Vector3) (k : ℚ) : Vector3 := ⟨v.x * k, v.y * k, v.z * k⟩

/-- `operator/(const Vector3&, const float)`: componentwise division. -/
def divs (v : Vector3) (k : ℚ) : Vector3 := ⟨v.x / k, v.y / k, v.z / k⟩

/-- `operator+=(Vector3&, const float)`: add a scalar to each component. -/
def adds (v : Vector3) (k : ℚ) : Vector3 := ⟨v.x + k, v.y + k, v.z + k⟩

/-- `Vector3::Dot`. -/
def dot (a b : Vector3) : ℚ := a.x * b.x + a.y * b.y + a.z * b.z

/-- `Vector3::GetSqrMagnitude`. -/
def sqrMagnitude (v : Vector3) : ℚ := v.x * v.x + v.y * v.y + v.z * v.z

/-- `Vector3::DistanceSqr`. -/
def distanceSqr (a b : Vector3) : ℚ :=
  (b.x - a.x) * (b.x - a.x) + (b.y - a.y) * (b.y - a.y) + (b.z - a.z) * (b.z - a.z)

/-- `Vector3::GetNormalize`: returns `Zero` when the length is zero,
otherwise the components divided by the length. -/
def getNormalize (v : Vector3) : Vector3 :=
  let length := ratSqrt (v.x * v.x + v.y * v.y + v.z * v.z)
  if length = 0 then zero else ⟨v.x / length, v.y / length, v.z / length⟩

/-- `Vector3::Normalize`: divides in place only when the length is nonzero,
otherwise leaves the vector unchanged. -/
def normalizeKeep (v : Vector3) : Vector3 :=
  let length := ratSqrt (v.x * v.x + v.y * v.y + v.z * v.z)
  if length ≠ 0 then ⟨v.x / length, v.y / length, v.z / length⟩ else v

/-- `Maths::operator==(const Vector3&, const Vector3&)`: epsilon comparison of
componentwise squared differences against `__DBL_EPSILON__` squared. -/
def approxEq (a b : Vector3) : Bool :=
  let ex := (a.x - b.x) * (a.x - b.x)
  let ey := (a.y - b.y) * (a.y - b.y)
  let ez := (a.z - b.z) * (a.z - b.z)
  let eps := dblEpsilon * dblEpsilon
  if ex > eps ∨ ey > eps ∨ ez > eps then false else true

end Vector3

/-- `Maths::Intersection`: impact point and surface normal. -/
structure Intersection where
  impact : Vector3
  normal : Vector3
  deriving DecidableEq

/-- The default `Intersection()` (zero impact, zero normal); also the state
`Intersection::Reset` restores. -/
def Intersection.zero : Intersection := ⟨Vector3.zero, Vector3.zero⟩

/-- `Maths::Line`: origin and direction. -/
structure Line where
  origin : Vector3
  direction : Vector3
  deriving DecidableEq

/-- `Line::ClosestPointOnLine`:
`m_origin + m_direction * Dot(Vector3(m_origin, p_pt), m_direction)`. -/
def Line.closestPointOnLine (l : Line) (pt : Vector3) : Vector3 :=
  l.origin + l.direction.smul (Vector3.dot (pt - l.origin) l.direction)

/-- `Maths::Plane`: normal and distance, implicit form `dot(normal,x) + distance = 0`. -/
structure Plane where
  normal : Vector3
  distance : ℚ
  deriving DecidableEq

/-- `Plane::Plane(const Vector3& p_normal, const Vector3& p_point)`:
`m_distance = -Dot(p_point, p_normal)`. -/
def Plane.ofPoint (n point : Vector3) : Plane := ⟨n, -(Vector3.dot point n)⟩

/-- `Plane::GetSide`: `dot(normal, p) + distance`. -/
def Plane.getSide (pl : Plane) (pt : Vector3) : ℚ :=
  pl.normal.x * pt.x + pl.normal.y * pt.y + pl.normal.z * pt.z + pl.distance

/-- `Maths::Segment`: two endpoints. -/
structure Segment where
  ptA : Vector3
  ptB : Vector3
  deriving DecidableEq

/-- `Segment::GetAB`. -/
def Segment.getAB (s : Segment) : Vector3 := s.ptB - s.ptA

/-- `Maths::Raycast`: origin, direction, and maximum distance. -/
structure Raycast where
  origin : Vector3
  direction : Vector3
  maxDistance : ℚ
  deriving DecidableEq

/-- `Maths::Sphere`. -/
structure Sphere where
  origin : Vector3
  radius : ℚ
  deriving DecidableEq

/-- `Maths::Cylinder`: finite, capped. -/
structure Cylinder where
  origin : Vector3
  direction : Vector3
  height : ℚ
  radius : ℚ
  deriving DecidableEq

/-- `Maths::InfiniteCylinder`. -/
structure InfiniteCylinder where
  origin : Vector3
  direction : Vector3
  radius : ℚ
  deriving DecidableEq

/-- `Maths::Capsule`. -/
structure Capsule where
  origin : Vector3
  direction : Vector3
  height : ℚ
  radius : ℚ
  deriving DecidableEq

/-- `Capsule::Capsule(const Vector3& p_origin, const Vector3& p_target, const float p_radius)`:
origin is the first point, direction `(target - origin).Normalize()`, height
`(target - origin).GetMagnitude()`. -/
def Capsule.ofPoints (o target : Vector3) (r : ℚ) : Capsule :=
  ⟨o, (target - o).normalizeKeep, ratSqrt (target - o).sqrMagnitude, r⟩

/-- `Maths::AABB`: origin, size, and the derived extents/min/max members
kept in sync exactly as the C++ constructors and mutators do. -/
structure AABB where
  origin : Vector3
  size : Vector3
  extents : Vector3
  min : Vector3
  max : Vector3
  deriving DecidableEq

/-- `AABB::AABB(const Vector3& p_origin, const Vector3& p_size)`:
extents = size/2, max = origin + extents, min = origin - extents. -/
def AABB.make (o s : Vector3) : AABB :=
  let e := s.divs 2
  ⟨o, s, e, o - e, o + e⟩

/-- `AABB::Expand(const float p_amount)`: size += 2*amount (per component),
extents += amount, then max/min recomputed from origin and the new extents. -/
def AABB.expand (box : AABB) (amount : ℚ) : AABB :=
  let e := box.extents.adds amount
  ⟨box.origin, box.size.adds (amount * 2), e, box.origin - e, box.origin + e⟩

/-- `AABB::ClosestPoint`: componentwise clamp of the point to `[min, max]`. -/
def AABB.closestPoint (box : AABB) (p : Vector3) : Vector3 :=
  ⟨if p.x < box.min.x then box.min.x else if p.x > box.max.x then box.max.x else p.x,
   if p.y < box.min.y then box.min.y else if p.y > box.max.y then box.max.y else p.y,
   if p.z < box.min.z then box.min.z else if p.z > box.max.z then box.max.z else p.z⟩

/-- `AABB::Corner(const int p_n)`: each component tests `p_n & 1`
(the source uses bit 0 for x, y and z alike). -/
def AABB.corner (box : AABB) (n : Nat) : Vector3 :=
  ⟨if n &&& 1 ≠ 0 then box.max.x else box.min.x,
   if n &&& 1 ≠ 0 then box.max.y else box.min.y,
   if n &&& 1 ≠ 0 then box.max.z else box.min.z⟩

/-- `AABB::IsColliding(const AABB&)`: returns false only when the three
signed origin differences all exceed the summed extents (the source chains
the axis tests with `&&` and takes no absolute value). -/
def AABB.isColliding (a b : AABB) : Bool :=
  if a.origin.x - b.origin.x > a.extents.x + b.extents.x ∧
     a.origin.y - b.origin.y > a.extents.y + b.extents.y ∧
     a.origin.z - b.origin.z > a.extents.z + b.extents.z then false else true

/-- `AABB::Normal`: walks the three axes keeping the axis whose extent is
closest (in absolute value) to the local point's coordinate, scales the axis
unit vector by the local coordinate, and normalizes the result. -/
def AABB.normal (box : AABB) (p : Vector3) : Vector3 :=
  let lp := p - box.origin
  let s0 : ℚ × Vector3 := (fltMax, Vector3.zero)
  let d0 := abs (box.extents.x - abs lp.x)
  let s1 := if d0 < s0.1 then (d0, Vector3.right.smul lp.x) else s0
  let d1 := abs (box.extents.y - abs lp.y)
  let s2 := if d1 < s1.1 then (d1, Vector3.up.smul lp.y) else s1
  let d2 := abs (box.extents.z - abs lp.z)
  let s3 := if d2 < s2.1 then (d2, Vector3.forward.smul lp.z) else s2
  s3.2.getNormalize

/-- One axis of the slab traversal shared by `Segment::IsIntersecting(const AABB&)`
and `Raycast::IsIntersecting(const AABB&)`: the axis is skipped when the probe
is constant on it, otherwise the entry/exit parameters are ordered, the running
`[tmin, tmax]` interval is intersected, and an empty interval aborts the loop
(`none` models the early `return false`). -/
def slabAxis (a b mn mx : ℚ) (acc : ℚ × ℚ) : Option (ℚ × ℚ) :=
  if b - a ≠ 0 then
    let t1 := (mn - a) / (b - a)
    let t2 := (mx - a) / (b - a)
    let p := if t2 < t1 then (t2, t1) else (t1, t2)
    if p.2 < acc.1 ∨ p.1 > acc.2 then none
    else
      let tmin := fmax acc.1 p.1
      let tmax := fmin acc.2 p.2
      if tmin > tmax then none else some (tmin, tmax)
  else some acc

/-- The three-axis slab loop over a linear probe from `a` to `b`, starting
from `tmin = 0`, `tmax = 1`. -/
def slabLoop (a b : Vector3) (box : AABB) : Option (ℚ × ℚ) :=
  match slabAxis a.x b.x box.min.x box.max.x (0, 1) with
  | none => none
  | some acc1 =>
    match slabAxis a.y b.y box.min.y box.max.y acc1 with
    | none => none
    | some acc2 => slabAxis a.z b.z box.min.z box.max.z acc2

/-- `Segment::IsIntersecting(const AABB&, Intersection&)` (Sources/Segment.cpp):
slab loop from `ptA` to `ptB`, rejection of `tmin == 0`, impact
`ptA + GetAB() * tmin`, normal from `AABB::Normal`. -/
def Segment.isIntersectingAABB (s : Segment) (box : AABB) (hit : Intersection) :
    Bool × Intersection :=
  match slabLoop s.ptA s.ptB box with
  | none => (false, hit)
  | some acc =>
    if acc.1 = 0 then (false, hit)
    else
      let impact := s.ptA + s.getAB.smul acc.1
      (true, ⟨impact, box.normal impact⟩)

/-- `Raycast::IsIntersecting(const AABB&, Intersection&)` (Sources/Raycast.cpp):
slab loop from `origin` to `origin + direction * maxDistance`; the impact is
`m_origin + m_direction * tmin`, without the `maxDistance` factor, exactly as
line 141 of the source writes it. -/
def Raycast.isIntersectingAABB (r : Raycast) (box : AABB) (hit : Intersection) :
    Bool × Intersection :=
  let target := r.origin + r.direction.smul r.maxDistance
  match slabLoop r.origin target box with
  | none => (false, hit)
  | some acc =>
    if acc.1 = 0 then (false, hit)
    else
      let impact := r.origin + r.direction.smul acc.1
      (true, ⟨impact, box.normal impact⟩)

/-- `Segment::IsIntersecting(const Plane&, Intersection&)`: the parameter is
computed as `m_distance - Dot(m_ptA, normal) / dot` (division binding tighter
than the subtraction, exactly as in the source), accepted on `[0,1]`, and the
normal is flipped towards the incoming probe. -/
def Segment.isIntersectingPlane (s : Segment) (pl : Plane) (hit : Intersection) :
    Bool × Intersection :=
  let segmentVector := s.ptB - s.ptA
  let d := Vector3.dot segmentVector pl.normal
  if d = 0 then (false, hit)
  else
    let t := pl.distance - Vector3.dot s.ptA pl.normal / d
    if 0 ≤ t ∧ t ≤ 1 then
      (true, ⟨s.ptA + segmentVector.smul t, if d > 0 then -pl.normal else pl.normal⟩)
    else (false, hit)

/-- `Raycast::IsIntersecting(const Plane&, Intersection&)`: same algorithm over
the ray vector `direction * maxDistance`. -/
def Raycast.isIntersectingPlane (r : Raycast) (pl : Plane) (hit : Intersection) :
    Bool × Intersection :=
  let ray := r.direction.smul r.maxDistance
  let d := Vector3.dot ray pl.normal
  if d = 0 then (false, hit)
  else
    let t := pl.distance - Vector3.dot r.origin pl.normal / d
    if 0 ≤ t ∧ t ≤ 1 then
      (true, ⟨r.origin + ray.smul t, if d > 0 then -pl.normal else pl.normal⟩)
    else (false, hit)

/-- `Segment::IsIntersecting(const Sphere&, Intersection&)`: quadratic with
`a = |AB|²`, `b = 2 dot(center - ptA, AB)`, `c = |center - ptA|² - r²`;
negative discriminant rejected, then `t = (-b - sqrt delta) / (2a)` accepted
on `[0,1]`. -/
def Segment.isIntersectingSphere (s : Segment) (sph : Sphere) (hit : Intersection) :
    Bool × Intersection :=
  let segmentVector := s.ptB - s.ptA
  let sphereVector := sph.origin - s.ptA
  let a := segmentVector.sqrMagnitude
  let b := 2 * Vector3.dot sphereVector segmentVector
  let c := sphereVector.sqrMagnitude - sph.radius * sph.radius
  let delta := b * b - 4 * a * c
  if delta < 0 then (false, hit)
  else
    let t := (-b - ratSqrt delta) / (2 * a)
    if 0 ≤ t ∧ t ≤ 1 then
      let impact := s.ptA + segmentVector.smul t
      (true, ⟨impact, (impact - sph.origin).getNormalize⟩)
    else (false, hit)

/-- `Raycast::IsIntersecting(const Sphere&, Intersection&)`: same quadratic
over the ray vector `direction * maxDistance`. -/
def Raycast.isIntersectingSphere (r : Raycast) (sph : Sphere) (hit : Intersection) :
    Bool × Intersection :=
  let ray := r.direction.smul r.maxDistance
  let sphereVector := sph.origin - r.origin
  let a := ray.sqrMagnitude
  let b := 2 * Vector3.dot sphereVector ray
  let c := sphereVector.sqrMagnitude - sph.radius * sph.radius
  let delta := b * b - 4 * a * c
  if delta < 0 then (false, hit)
  else
    let t := (-b - ratSqrt delta) / (2 * a)
    if 0 ≤ t ∧ t ≤ 1 then
      let impact := r.origin + ray.smul t
      (true, ⟨impact, (impact - sph.origin).getNormalize⟩)
    else (false, hit)

/-- `Segment::IsIntersecting(const InfiniteCylinder&, Intersection&)`:
quadratic on the probe component perpendicular to the axis; the normal points
from the closest axis point to the impact. -/
def Segment.isIntersectingInfiniteCylinder (s : Segment) (cyl : InfiniteCylinder)
    (hit : Intersection) : Bool × Intersection :=
  let segmentVector := s.ptB - s.ptA
  let cylinderToSegment := s.ptA - cyl.origin
  let dot1 := Vector3.dot segmentVector cyl.direction
  let dot2 := Vector3.dot cylinderToSegment cyl.direction
  let a := segmentVector.sqrMagnitude - dot1 * dot1
  let b := 2 * Vector3.dot cylinderToSegment segmentVector - 2 * dot1 * dot2
  let c := cylinderToSegment.sqrMagnitude - dot2 * dot2 - cyl.radius * cyl.radius
  let delta := b * b - 4 * a * c
  if delta < 0 then (false, hit)
  else
    let t := (-b - ratSqrt delta) / (2 * a)
    if 0 ≤ t ∧ t ≤ 1 then
      let impact := s.ptA + segmentVector.smul t
      let axisPt := Line.closestPointOnLine ⟨cyl.origin, cyl.direction⟩ impact
      (true, ⟨impact, (impact - axisPt).getNormalize⟩)
    else (false, hit)

/-- `Segment::IsIntersecting(const Cylinder&, Intersection&)`: rejects when the
far endpoint is beyond a cap; when the near endpoint is beyond a cap, tests
that cap's plane (writing the out-parameter on a plane hit even when the disc
check then fails) and falls through to the lateral infinite-cylinder test. -/
def Segment.isIntersectingCylinder (s : Segment) (cyl : Cylinder) (hit : Intersection) :
    Bool × Intersection :=
  let pointP := cyl.origin + cyl.direction.smul (cyl.height / 2)
  let pointQ := cyl.origin - cyl.direction.smul (cyl.height / 2)
  let planeP := Plane.ofPoint cyl.direction pointP
  let planeQ := Plane.ofPoint (-cyl.direction) pointQ
  let stepInf := fun (h : Intersection) =>
    s.isIntersectingInfiniteCylinder ⟨cyl.origin, cyl.direction, cyl.radius⟩ h
  let stepQ := fun (h : Intersection) =>
    if planeQ.getSide s.ptA ≥ 0 then
      match s.isIntersectingPlane planeQ h with
      | (true, h2) =>
        if Vector3.distanceSqr h2.impact pointQ ≤ cyl.radius * cyl.radius then (true, h2)
        else stepInf h2
      | (false, h2) => (false, h2)
    else stepInf h
  if planeP.getSide s.ptB ≥ 0 ∨ planeQ.getSide s.ptB ≥ 0 then (false, hit)
  else if planeP.getSide s.ptA ≥ 0 then
    match s.isIntersectingPlane planeP hit with
    | (true, h1) =>
      if Vector3.distanceSqr h1.impact pointP ≤ cyl.radius * cyl.radius then (true, h1)
      else stepQ h1
    | (false, h1) => (false, h1)
  else stepQ hit

/-- `Segment::IsIntersecting(const Capsule&, Intersection&)`: branch on which
cap plane the segment starts beyond; each branch chains end-sphere and finite
cylinder tests, returning the first hit. -/
def Segment.isIntersectingCapsule (s : Segment) (cap : Capsule) (hit : Intersection) :
    Bool × Intersection :=
  let pointP := cap.origin + cap.direction.smul (cap.height / 2)
  let pointQ := cap.origin - cap.direction.smul (cap.height / 2)
  let planeP := Plane.ofPoint cap.direction pointP
  let planeQ := Plane.ofPoint (-cap.direction) pointQ
  let body : Cylinder := ⟨cap.origin, cap.direction, cap.height, cap.radius⟩
  let chain3 := fun (x y z : Intersection → Bool × Intersection) (h : Intersection) =>
    match x h with
    | (true, h1) => (true, h1)
    | (false, h1) =>
      match y h1 with
      | (true, h2) => (true, h2)
      | (false, h2) => z h2
  let sphereP := fun (h : Intersection) => s.isIntersectingSphere ⟨pointP, cap.radius⟩ h
  let sphereQ := fun (h : Intersection) => s.isIntersectingSphere ⟨pointQ, cap.radius⟩ h
  let cylTest := fun (h : Intersection) => s.isIntersectingCylinder body h
  if planeP.getSide s.ptA ≥ 0 then chain3 sphereP cylTest sphereQ hit
  else if planeQ.getSide s.ptA ≥ 0 then chain3 sphereQ cylTest sphereP hit
  else chain3 cylTest sphereP sphereQ hit

/-- The region code of `Sphere::IsMovingSphereColliding`: `u` collects the
below-min bits of the raw impact against the unexpanded box (1 for x, 2 for y,
4 for z) and `v` the above-max bits. -/
def AABB.regionBits (box : AABB) (p : Vector3) : Nat × Nat :=
  ((if p.x < box.min.x then 1 else 0) + (if p.y < box.min.y then 2 else 0) +
     (if p.z < box.min.z then 4 else 0),
   (if p.x > box.max.x then 1 else 0) + (if p.y > box.max.y then 2 else 0) +
     (if p.z > box.max.z then 4 else 0))

/-- `Sphere::IsMovingSphereColliding(const AABB&, const Vector3&, Intersection&)`
(Sources/Sphere.cpp): segment test against the radius-expanded box, Voronoi
region classification of the raw impact, then the vertex capsule sweep with the
`FLT_MAX` sentinel and `Reset`, the face closest-point snap, or the single edge
capsule test whose result is returned directly. -/
def Sphere.isMovingSphereColliding (sph : Sphere) (box : AABB) (speed : Vector3)
    (hit : Intersection) : Bool × Intersection :=
  let expanded := box.expand sph.radius
  let movement : Segment := ⟨sph.origin, sph.origin + speed⟩
  match movement.isIntersectingAABB expanded hit with
  | (false, h) => (false, h)
  | (true, h1) =>
    let uv := box.regionBits h1.impact
    let u := uv.1
    let v := uv.2
    let m := u + v
    let capOf := fun (i j : Nat) => Capsule.ofPoints (box.corner i) (box.corner j) sph.radius
    if m = 7 then
      let sentinel : Vector3 := ⟨fltMax, fltMax, fltMax⟩
      let p0 : Intersection := ⟨sentinel, h1.normal⟩
      let r1 := movement.isIntersectingCapsule (capOf v (v ^^^ 1)) Intersection.zero
      let p1 := if r1.1 = true ∧
          Vector3.distanceSqr sph.origin r1.2.impact < Vector3.distanceSqr sph.origin p0.impact
        then r1.2 else p0
      let r2 := movement.isIntersectingCapsule (capOf v (v ^^^ 2)) r1.2
      let p2 := if r2.1 = true ∧
          Vector3.distanceSqr sph.origin r2.2.impact < Vector3.distanceSqr sph.origin p1.impact
        then r2.2 else p1
      let r3 := movement.isIntersectingCapsule (capOf v (v ^^^ 4)) r2.2
      let p3 := if r3.1 = true ∧
          Vector3.distanceSqr sph.origin r3.2.impact < Vector3.distanceSqr sph.origin p2.impact
        then r3.2 else p2
      if p3.impact.approxEq sentinel then (false, Intersection.zero) else (true, p3)
    else if m &&& (m - 1) = 0 then
      (true, ⟨box.closestPoint h1.impact, h1.normal⟩)
    else
      movement.isIntersectingCapsule (capOf (u ^^^ 7) v) h1

/-- `Maths::Range`: a scalar interval. -/
structure Range where
  min : ℚ
  max : ℚ
  deriving DecidableEq

/-- `Maths::OBB`: origin, half extents, Euler angles. -/
structure OBB where
  origin : Vector3
  extents : Vector3
  angle : Vector3
  deriving DecidableEq

/-- Models `Matrix4x4::Rotate(Quaternion::Euler(angle))` for `angle = (0,0,0)`:
the Euler-to-matrix construction lives in the external linear-algebra layer
(spec, section 1); for zero angles it is the identity map. -/
def rotId : Vector3 → Vector3 := fun v => v

/-- `OBB::GetVertices` (Sources/OBB.cpp): the 8 local corners, in the source's
push order, rotated by `rot` (the matrix built from the Euler angles, passed
here as a function) and translated by the origin. -/
def OBB.getVertices (rot : Vector3 → Vector3) (o : OBB) : List Vector3 :=
  [o.origin + rot ⟨-o.extents.x,  o.extents.y,  o.extents.z⟩,
   o.origin + rot ⟨ o.extents.x,  o.extents.y,  o.extents.z⟩,
   o.origin + rot ⟨-o.extents.x, -o.extents.y,  o.extents.z⟩,
   o.origin + rot ⟨ o.extents.x, -o.extents.y,  o.extents.z⟩,
   o.origin + rot ⟨ o.extents.x,  o.extents.y, -o.extents.z⟩,
   o.origin + rot ⟨-o.extents.x,  o.extents.y, -o.extents.z⟩,
   o.origin + rot ⟨ o.extents.x, -o.extents.y, -o.extents.z⟩,
   o.origin + rot ⟨-o.extents.x, -o.extents.y, -o.extents.z⟩]

/-- `Range::SAT` (Sources/Range.cpp): folds the dot products of the axis with
the 8 OBB vertices into a running interval seeded with
`Range(__FLT_MAX__, __FLT_MIN__)`. -/
def Range.SAT (rot : Vector3 → Vector3) (axis : Vector3) (obb : OBB) : Range :=
  (OBB.getVertices rot obb).foldl
    (fun rg vtx =>
      let d := Vector3.dot axis vtx
      ⟨fmin rg.min d, fmax rg.max d⟩)
    ⟨fltMax, fltMin⟩

unseal Rat.add Rat.mul Rat.sub Rat.inv in
/-- C1: the ray/segment self-consistency fails on the AABB test. The ray
`((-5,0,0), (1,0,0), maxDistance 10)` and the segment `(-5,0,0) → (5,0,0)`
describe the same linear probe; both report a hit on the box of size
`(2,2,2)` at the origin, but the segment's impact is `(-1,0,0)` while the
ray's impact is `(-23/5,0,0)`: `Raycast::IsIntersecting(const AABB&)` scales
the direction by `tmin` only, omitting `maxDistance`. -/
theorem C1_raycast_segment_aabb_mismatch :
    (Raycast.isIntersectingAABB ⟨⟨-5, 0, 0⟩, ⟨1, 0, 0⟩, 10⟩
        (AABB.make ⟨0, 0, 0⟩ ⟨2, 2, 2⟩) Intersection.zero).1 = true ∧
    (Segment.isIntersectingAABB ⟨⟨-5, 0, 0⟩, ⟨5, 0, 0⟩⟩
        (AABB.make ⟨0, 0, 0⟩ ⟨2, 2, 2⟩) Intersection.zero).1 = true ∧
    (Segment.isIntersectingAABB ⟨⟨-5, 0, 0⟩, ⟨5, 0, 0⟩⟩
        (AABB.make ⟨0, 0, 0⟩ ⟨2, 2, 2⟩) Intersection.zero).2.impact = ⟨-1, 0, 0⟩ ∧
    (Raycast.isIntersectingAABB ⟨⟨-5, 0, 0⟩, ⟨1, 0, 0⟩, 10⟩
        (AABB.make ⟨0, 0, 0⟩ ⟨2, 2, 2⟩) Intersection.zero).2.impact ≠
      (Segment.isIntersectingAABB ⟨⟨-5, 0, 0⟩, ⟨5, 0, 0⟩⟩
        (AABB.make ⟨0, 0, 0⟩ ⟨2, 2, 2⟩) Intersection.zero).2.impact := by
  decide

unseal Rat.add Rat.mul Rat.sub Rat.inv in
/-- C2: the spec's concrete scenario fails. The ray from `(0,0,-5)` along
`(0,0,1)` with `maxDistance 10` against the unit sphere at the origin is
reported as a miss (the source computes `t = (-b - sqrt(delta)) / (2a)` with
`b = 2 dot(center - origin, ray)`, which is `-3/5` here), although the probe
point at parameter `2/5` lies exactly on the sphere, so the smaller root of
the claimed quadratic is in `[0,1]`. -/
theorem C2_raycast_sphere_scenario_missed :
    Raycast.isIntersectingSphere ⟨⟨0, 0, -5⟩, ⟨0, 0, 1⟩, 10⟩ ⟨⟨0, 0, 0⟩, 1⟩
        Intersection.zero = (false, Intersection.zero) ∧
    Vector3.distanceSqr
        ((⟨0, 0, -5⟩ : Vector3) + (Vector3.smul ⟨0, 0, 1⟩ 10).smul (2 / 5)) ⟨0, 0, 0⟩ = 1 ∧
    ((⟨0, 0, -5⟩ : Vector3) + (Vector3.smul ⟨0, 0, 1⟩ 10).smul (2 / 5)) = ⟨0, 0, -1⟩ := by
  decide

unseal Rat.add Rat.mul Rat.sub Rat.inv in
/-- C3 counterexample: in the spec's swept-sphere face scenario the reported
impact point is the closest point `(2,0,0)` on the box, whose x-coordinate is
`2` and not `3/2`. -/
theorem C3_counterexample :
    (Sphere.isMovingSphereColliding ⟨⟨0, 0, 0⟩, 1 / 2⟩ (AABB.make ⟨3, 0, 0⟩ ⟨2, 2, 2⟩)
        ⟨5, 0, 0⟩ Intersection.zero).1 = true ∧
    (Sphere.isMovingSphereColliding ⟨⟨0, 0, 0⟩, 1 / 2⟩ (AABB.make ⟨3, 0, 0⟩ ⟨2, 2, 2⟩)
        ⟨5, 0, 0⟩ Intersection.zero).2.impact.x = 2 ∧
    (Sphere.isMovingSphereColliding ⟨⟨0, 0, 0⟩, 1 / 2⟩ (AABB.make ⟨3, 0, 0⟩ ⟨2, 2, 2⟩)
        ⟨5, 0, 0⟩ Intersection.zero).2.impact.x ≠ 3 / 2 := by
  decide

unseal Rat.add Rat.mul Rat.sub Rat.inv in
/-- C3 amended: the swept test returns a hit whose raw impact `(3/2,0,0)` on
the radius-expanded box is classified in the face region (only the below-min
x bit is set), and the reported impact is the box's closest point `(2,0,0)`
(the raw x of `3/2` is snapped to the face at `x = 2`). -/
theorem C3_swept_face_snapped :
    Sphere.isMovingSphereColliding ⟨⟨0, 0, 0⟩, 1 / 2⟩ (AABB.make ⟨3, 0, 0⟩ ⟨2, 2, 2⟩)
        ⟨5, 0, 0⟩ Intersection.zero = (true, ⟨⟨2, 0, 0⟩, ⟨-1, 0, 0⟩⟩) ∧
    (Segment.isIntersectingAABB ⟨⟨0, 0, 0⟩, ⟨5, 0, 0⟩⟩
        ((AABB.make ⟨3, 0, 0⟩ ⟨2, 2, 2⟩).expand (1 / 2)) Intersection.zero).2.impact =
      ⟨3 / 2, 0, 0⟩ ∧
    (AABB.make ⟨3, 0, 0⟩ ⟨2, 2, 2⟩).regionBits ⟨3 / 2, 0, 0⟩ = (1, 0) ∧
    (AABB.make ⟨3, 0, 0⟩ ⟨2, 2, 2⟩).closestPoint ⟨3 / 2, 0, 0⟩ = ⟨2, 0, 0⟩ := by
  decide

unseal Rat.add Rat.mul Rat.sub Rat.inv in
/-- C4: two boxes separated by `10` on the x axis (`|0 - 10| > 1 + 1`) are
reported as colliding: the source requires all three signed differences to
exceed the summed extents before returning false. -/
theorem C4_separated_boxes_reported_colliding :
    (AABB.make ⟨0, 0, 0⟩ ⟨2, 2, 2⟩).isColliding (AABB.make ⟨10, 0, 0⟩ ⟨2, 2, 2⟩) = true ∧
    abs ((AABB.make ⟨0, 0, 0⟩ ⟨2, 2, 2⟩).origin.x - (AABB.make ⟨10, 0, 0⟩ ⟨2, 2, 2⟩).origin.x) >
      (AABB.make ⟨0, 0, 0⟩ ⟨2, 2, 2⟩).extents.x + (AABB.make ⟨10, 0, 0⟩ ⟨2, 2, 2⟩).extents.x := by
  decide

unseal Rat.add Rat.mul Rat.sub Rat.inv in
/-- C5: the ray from the origin along `(0,0,1)` with `maxDistance 10` against
the plane through `(0,0,2)` with normal `(0,0,1)` is reported as a miss,
although the probe is not perpendicular to the normal and the probe point at
parameter `1/5` solves `dot(normal, x) + distance = 0`: the source computes
`t = m_distance - dot(origin, normal) / dot` (the division binds tighter),
which is `-2` here. -/
theorem C5_plane_probe_true_solution_missed :
    Raycast.isIntersectingPlane ⟨⟨0, 0, 0⟩, ⟨0, 0, 1⟩, 10⟩
        (Plane.ofPoint ⟨0, 0, 1⟩ ⟨0, 0, 2⟩) Intersection.zero = (false, Intersection.zero) ∧
    Vector3.dot (Vector3.smul ⟨0, 0, 1⟩ 10) (Plane.ofPoint ⟨0, 0, 1⟩ ⟨0, 0, 2⟩).normal ≠ 0 ∧
    (Plane.ofPoint ⟨0, 0, 1⟩ ⟨0, 0, 2⟩).getSide
        ((⟨0, 0, 0⟩ : Vector3) + (Vector3.smul ⟨0, 0, 1⟩ 10).smul (1 / 5)) = 0 := by
  decide

unseal Rat.add Rat.mul Rat.sub Rat.inv in
/-- C6: an edge-region failure leaves the raw expanded-box hit in the
out-parameter. The sphere at `(3, 5/4, 0)` with radius `1/2` moved by
`(-3,0,0)` against the box of size `(2,2,2)` at the origin hits the expanded
box at `(3/2, 5/4, 0)` (edge region: the above-max x and y bits are set), the
edge capsule test fails, and the function returns false with the out-parameter
still holding the raw impact and normal instead of the reset zero record. -/
theorem C6_swept_edge_failure_stale_hit :
    Sphere.isMovingSphereColliding ⟨⟨3, 5 / 4, 0⟩, 1 / 2⟩ (AABB.make ⟨0, 0, 0⟩ ⟨2, 2, 2⟩)
        ⟨-3, 0, 0⟩ Intersection.zero = (false, ⟨⟨3 / 2, 5 / 4, 0⟩, ⟨1, 0, 0⟩⟩) ∧
    (⟨⟨3 / 2, 5 / 4, 0⟩, ⟨1, 0, 0⟩⟩ : Intersection) ≠ Intersection.zero ∧
    (AABB.make ⟨0, 0, 0⟩ ⟨2, 2, 2⟩).regionBits ⟨3 / 2, 5 / 4, 0⟩ = (0, 3) := by
  decide

unseal Rat.add Rat.mul Rat.sub Rat.inv in
/-- C7: when all 8 projections are negative, `Range::SAT` returns a wrong
maximum. For the axis `(1,0,0)` and the axis-aligned OBB at `(-10,0,0)` with
unit extents, every vertex projection is at most `-9` and `-9` is attained,
yet the returned range is `(-11, __FLT_MIN__)`: the running maximum is seeded
with the positive `__FLT_MIN__`, which no negative projection exceeds. -/
theorem C7_sat_seed_fltmin_negative_projections :
    Range.SAT rotId ⟨1, 0, 0⟩ ⟨⟨-10, 0, 0⟩, ⟨1, 1, 1⟩, ⟨0, 0, 0⟩⟩ = ⟨-11, fltMin⟩ ∧
    (∀ vtx ∈ OBB.getVertices rotId ⟨⟨-10, 0, 0⟩, ⟨1, 1, 1⟩, ⟨0, 0, 0⟩⟩,
      Vector3.dot ⟨1, 0, 0⟩ vtx ≤ -9) ∧
    (-9 : ℚ) ∈ (OBB.getVertices rotId ⟨⟨-10, 0, 0⟩, ⟨1, 1, 1⟩, ⟨0, 0, 0⟩⟩).map
      (fun vtx => Vector3.dot ⟨1, 0, 0⟩ vtx) ∧
    fltMin ≠ -9 := by
  decide

unseal Rat.add Rat.mul Rat.sub Rat.inv in
/-- C8: `AABB::Corner` tests bit 0 of `n` for all three coordinates, so
`Corner(1)` on the box of size `(2,2,2)` at the origin is `(1,1,1)` — its y
coordinate is `max.y`, not the `min.y` that bit 1 of `n = 1` selects — and
`Corner(1)`, `Corner(3)` and `Corner(7)` coincide instead of enumerating
distinct corners. -/
theorem C8_corner_ignores_high_bits :
    (AABB.make ⟨0, 0, 0⟩ ⟨2, 2, 2⟩).corner 1 = ⟨1, 1, 1⟩ ∧
    ((AABB.make ⟨0, 0, 0⟩ ⟨2, 2, 2⟩).corner 1).y ≠ (AABB.make ⟨0, 0, 0⟩ ⟨2, 2, 2⟩).min.y ∧
    (AABB.make ⟨0, 0, 0⟩ ⟨2, 2, 2⟩).corner 1 = (AABB.make ⟨0, 0, 0⟩ ⟨2, 2, 2⟩).corner 3 ∧
    (AABB.make ⟨0, 0, 0⟩ ⟨2, 2, 2⟩).corner 1 = (AABB.make ⟨0, 0, 0⟩ ⟨2, 2, 2⟩).corner 7 := by
  decide

/-- C9: whenever the slab traversal completes with entry parameter
`tmin = 0`, both the segment and the raycast AABB testers report a miss and
leave the out-parameter unchanged. -/
theorem C9_slab_tmin_zero_rejected (s : Segment) (r : Raycast) (box : AABB)
    (h0 : Intersection) (ts tr : ℚ)
    (hs : slabLoop s.ptA s.ptB box = some (0, ts))
    (hr : slabLoop r.origin (r.origin + r.direction.smul r.maxDistance) box = some (0, tr)) :
    s.isIntersectingAABB box h0 = (false, h0) ∧
    r.isIntersectingAABB box h0 = (false, h0) := by
  constructor
  · simp [Segment.isIntersectingAABB, hs]
  · simp [Raycast.isIntersectingAABB, hr]

unseal Rat.add Rat.mul Rat.sub Rat.inv in
/-- C9 witness: the segment `(0,0,0) → (3,0,0)` starting inside the box of
size `(2,2,2)` at the origin, and the ray describing the same probe, both
leave the slab loop with `tmin = 0` and are reported as misses. -/
theorem C9_slab_tmin_zero_rejected_witness :
    Segment.isIntersectingAABB ⟨⟨0, 0, 0⟩, ⟨3, 0, 0⟩⟩ (AABB.make ⟨0, 0, 0⟩ ⟨2, 2, 2⟩)
        Intersection.zero = (false, Intersection.zero) ∧
    Raycast.isIntersectingAABB ⟨⟨0, 0, 0⟩, ⟨1, 0, 0⟩, 3⟩ (AABB.make ⟨0, 0, 0⟩ ⟨2, 2, 2⟩)
        Intersection.zero = (false, Intersection.zero) :=
  C9_slab_tmin_zero_rejected ⟨⟨0, 0, 0⟩, ⟨3, 0, 0⟩⟩ ⟨⟨0, 0, 0⟩, ⟨1, 0, 0⟩, 3⟩
    (AABB.make ⟨0, 0, 0⟩ ⟨2, 2, 2⟩) Intersection.zero (1 / 3) (1 / 3)
    (by decide) (by decide)

unseal Rat.add Rat.mul Rat.sub Rat.inv in
/-- C10: a false return can leave the out-parameter modified. The segment
`(5,0,3) → (4,0,0)` against the capped cylinder of height 2 and radius 1
along `(0,0,1)` starts beyond the upper cap; the cap-plane sub-test writes
impact `(5,0,3)` and normal `(0,0,1)` before the disc check rejects the hit,
the lateral test also fails, and the tester returns false with the
out-parameter no longer equal to the zero record it was passed. -/
theorem C10_cylinder_false_return_modifies_hit :
    Segment.isIntersectingCylinder ⟨⟨5, 0, 3⟩, ⟨4, 0, 0⟩⟩ ⟨⟨0, 0, 0⟩, ⟨0, 0, 1⟩, 2, 1⟩
        Intersection.zero = (false, ⟨⟨5, 0, 3⟩, ⟨0, 0, 1⟩⟩) ∧
    (⟨⟨5, 0, 3⟩, ⟨0, 0, 1⟩⟩ : Intersection) ≠ Intersection.zero := by
  decide

end Maths
